import Mathlib

/-!
Shallow embedding of the authentication request lifecycle of the
Express/Mongoose backend template: the user schema (`src/models/user.model.js`),
the auth controllers (`auth.controllers.js`), the auth middleware
(`auth.middleware.js`) and the cookie policy (`utils/cookieOptions.js`).

The credential store is modelled as a list of user records; Mongoose
behaviour that matters here (the `lowercase`/`trim` setters on `email`,
`trim` on `name`, `required` validation, the unique-email index, the
`timestamps` option, the default-excluded `passwordHash` projection) is
embedded explicitly.  The bcrypt and jsonwebtoken libraries are modelled by
executable functions exposing exactly the contract the code relies on:
`bcryptCompare p h` holds precisely when `h` was produced by hashing `p`,
and a signed token verifies exactly when the secret matches and the expiry
has not passed.
-/

namespace BackendAuth

/-- A stored user record, one document of the `users` collection.
Timestamps and ids are abstract naturals. -/
structure User where
  id : Nat
  name : String
  email : String
  passwordHash : String
  isActive : Bool
  createdAt : Nat
  updatedAt : Nat
deriving DecidableEq, Repr

/-- The credential store state: the list of documents in `users`. -/
abbrev Store := List User

/-- ASCII lower-casing of one character, the behaviour of the Mongoose
`lowercase` setter on each character. -/
def lowerChar (c : Char) : Char :=
  if 65 ≤ c.toNat ∧ c.toNat ≤ 90 then Char.ofNat (c.toNat + 32) else c

/-- The whitespace characters the `trim` setter strips. -/
def isSpaceChar (c : Char) : Bool :=
  c == ' ' || c == '\t' || c == '\n' || c == '\r'

/-- Strip leading and trailing whitespace from a character list. -/
def trimChars (l : List Char) : List Char :=
  ((l.dropWhile isSpaceChar).reverse.dropWhile isSpaceChar).reverse

/-- The Mongoose `trim` setter on a string path. -/
def trimStr (s : String) : String := ⟨trimChars s.data⟩

/-- Mongoose setters on the `email` path: `trim` and `lowercase`. -/
def normEmail (e : String) : String := ⟨trimChars (e.data.map lowerChar)⟩

/-- `userModel.findOne({email})` with the default projection.  Mongoose
applies the schema setters to the query filter, so the filter value is
normalised before comparison. -/
def findOne (s : Store) (email : String) : Option User :=
  s.find? (fun u => u.email == normEmail email)

/-- `userModel.findById(id)` with the default projection. -/
def findById (s : Store) (id : Nat) : Option User :=
  s.find? (fun u => u.id == id)

/-- Errors a store write can reject with. -/
inductive DbError where
  | duplicateKey
  | validation
deriving DecidableEq, Repr

/-- `userModel.create({name, email, passwordHash})`: applies the schema
setters, enforces `required` on the three paths, enforces the unique index
on `email` (rejecting with a duplicate-key error), fills `isActive` with
its default `true`, and lets the `timestamps` option stamp
`createdAt`/`updatedAt`.  The fresh document id and the current time are
passed in by the environment. -/
def Store.create (s : Store) (name email passwordHash : String)
    (newId now : Nat) : Except DbError (User × Store) :=
  let n := trimStr name
  let e := normEmail email
  if n = "" ∨ e = "" ∨ passwordHash = "" then .error .validation
  else if s.any (fun u => u.email == e) then .error .duplicateKey
  else
    let u : User :=
      { id := newId, name := n, email := e, passwordHash := passwordHash,
        isActive := true, createdAt := now, updatedAt := now }
    .ok (u, s ++ [u])

/-- Model of `bcrypt.hash(password, 10)`: an injective tagging of the
password, so that compare succeeds exactly on the hashed password. -/
def bcryptHash (password : String) : String :=
  "$2b$10$" ++ password

/-- Model of `bcrypt.compare(password, hash)`: true precisely when `hash`
was produced by `bcryptHash password`. -/
def bcryptCompare (password hash : String) : Bool :=
  hash == bcryptHash password

/-- Five days in seconds, the `expiresIn: 5d` argument of `jwt.sign`. -/
def fiveDaysSec : Nat := 5 * 24 * 60 * 60

/-- A signed token: the embedded user id, the signature (determined by the
signing secret) and the absolute expiry time in seconds. -/
structure Token where
  id : Nat
  sig : String
  exp : Nat
deriving DecidableEq, Repr

/-- Model of `jwt.sign({id}, secret, {expiresIn: 5d})` at time `now`. -/
def jwtSign (id : Nat) (secret : String) (now : Nat) : Token :=
  { id := id, sig := secret, exp := now + fiveDaysSec }

/-- Reasons `jwt.verify` throws. -/
inductive TokenError where
  | badSignature
  | expired
deriving DecidableEq, Repr

/-- Model of `jwt.verify(token, secret)` at time `now`: rejects a wrong
signature and an expired token, otherwise yields the embedded id. -/
def jwtVerify (t : Token) (secret : String) (now : Nat) : Except TokenError Nat :=
  if t.sig ≠ secret then .error .badSignature
  else if t.exp ≤ now then .error .expired
  else .ok t.id

/-- The `cookieOptions` record from `utils/cookieOptions.js`. -/
structure CookieOptions where
  httpOnly : Bool
  secure : Bool
  sameSite : String
  maxAge : Nat
deriving DecidableEq, Repr

/-- `cookieOptions`, a function of the `NODE_ENV` environment variable. -/
def cookieOptions (nodeEnv : String) : CookieOptions :=
  { httpOnly := true, secure := nodeEnv == "production",
    sameSite := "strict", maxAge := 5 * 24 * 60 * 60 * 1000 }

/-- A JSON value, enough for the response bodies this code builds. -/
inductive Json where
  | str (s : String)
  | num (n : Nat)
  | bool (b : Bool)
  | obj (fields : List (String × Json))

/-- The keys of a JSON object (empty for non-objects). -/
def jsonKeys : Json → List String
  | .obj fields => fields.map Prod.fst
  | _ => []

/-- The effect a handler has on the `token` cookie. -/
inductive CookieAction where
  | keep
  | set (name : String) (t : Token) (opts : CookieOptions)
  | clear (name : String) (opts : CookieOptions)
deriving DecidableEq

/-- An HTTP response as the handlers build it: status, the `success` flag,
the `message`, the optional `data` payload, and the cookie effect. -/
structure Response where
  status : Nat
  success : Bool
  message : String
  data : Option Json
  cookie : CookieAction

/-- A response with no `data` and no cookie effect, the error shape. -/
def errResponse (status : Nat) (message : String) : Response :=
  { status := status, success := false, message := message,
    data := none, cookie := .keep }

/-- The sanitized user projection built inline by register and login:
exactly the fields `_id, name, email, isActive, createdAt, updatedAt`. -/
def userResponseJson (u : User) : Json :=
  .obj [("_id", .num u.id), ("name", .str u.name), ("email", .str u.email),
        ("isActive", .bool u.isActive), ("createdAt", .num u.createdAt),
        ("updatedAt", .num u.updatedAt)]

/-- The `data` payload of a success response: `{user: userResponse}`. -/
def userPayload (u : User) : Json :=
  .obj [("user", userResponseJson u)]

/-- JavaScript truthiness of an optional string body field: present and
non-empty. -/
def truthy : Option String → Bool
  | none => false
  | some s => s ≠ ""

/-- The request body of register: `{name, email, password}`, each possibly
absent. -/
structure RegisterBody where
  name : Option String
  email : Option String
  password : Option String

/-- The request body of login: `{email, password}`. -/
structure LoginBody where
  email : Option String
  password : Option String

/-- `registerController`.  `store` is the store state the pre-check reads;
`pending` are user documents committed by concurrent requests between the
pre-check read and the `create` write, so the create runs against
`store ++ pending`.  `newId`/`now` are the fresh id and clock supplied by
the environment, `secret` is `JWT_SECRET`, `nodeEnv` is `NODE_ENV`.
Returns the response and the store state after the call.  A rejected
`create` is caught by the surrounding try/catch, which answers 500. -/
def registerController (body : RegisterBody) (store : Store)
    (pending : List User) (newId now : Nat) (secret nodeEnv : String) :
    Response × Store :=
  if ¬ (truthy body.name ∧ truthy body.email ∧ truthy body.password) then
    (errResponse 400 "All fields are required", store ++ pending)
  else
    match findOne store (body.email.getD "") with
    | some _ => (errResponse 409 "User already exists", store ++ pending)
    | none =>
      match Store.create (store ++ pending) (body.name.getD "")
          (body.email.getD "") (bcryptHash (body.password.getD ""))
          newId now with
      | .error _ => (errResponse 500 "Internal server error", store ++ pending)
      | .ok (user, store') =>
        let token := jwtSign user.id secret now
        ({ status := 201, success := true,
           message := "User registered successfully",
           data := some (userPayload user),
           cookie := .set "token" token (cookieOptions nodeEnv) }, store')

/-- `loginController`.  `dbFails` injects a store exception at the first
`await` (the `findOne` call); the surrounding try/catch answers 500.
Login performs no store write, so the store is returned unchanged on every
path. -/
def loginController (body : LoginBody) (store : Store) (dbFails : Bool)
    (now : Nat) (secret nodeEnv : String) : Response × Store :=
  if ¬ (truthy body.email ∧ truthy body.password) then
    (errResponse 400 "Email and password are required", store)
  else if dbFails then
    (errResponse 500 "Internal server error", store)
  else
    match findOne store (body.email.getD "") with
    | none => (errResponse 404 "User not found", store)
    | some user =>
      if ¬ bcryptCompare (body.password.getD "") user.passwordHash then
        (errResponse 401 "Invalid password", store)
      else
        let token := jwtSign user.id secret now
        ({ status := 200, success := true, message := "Login successful",
           data := some (userPayload user),
           cookie := .set "token" token (cookieOptions nodeEnv) }, store)

/-- `logoutController`: clears the `token` cookie with the shared
`cookieOptions` and answers 200 unconditionally. -/
def logoutController (store : Store) (nodeEnv : String) : Response × Store :=
  ({ status := 200, success := true, message := "Logged out successfully",
     data := none, cookie := .clear "token" (cookieOptions nodeEnv) }, store)

/-- The outcome of the auth middleware: either it halts with a response or
attaches the resolved user and continues. -/
inductive MwResult where
  | halt (r : Response)
  | next (u : User)

/-- `authMiddleware`.  `cookieToken` is `req.cookies.token` (none when
absent or falsy); `dbFails` injects a store exception at the
`findById` call, which the surrounding try/catch answers with
401 `Invalid token`, exactly like a `jwt.verify` throw. -/
def authMiddleware (cookieToken : Option Token) (secret : String)
    (now : Nat) (store : Store) (dbFails : Bool) : MwResult :=
  match cookieToken with
  | none => .halt (errResponse 401 "Unauthorized: token not found")
  | some token =>
    match jwtVerify token secret now with
    | .error _ => .halt (errResponse 401 "Invalid token")
    | .ok uid =>
      if dbFails then .halt (errResponse 401 "Invalid token")
      else
        match findById store uid with
        | none => .halt (errResponse 401 "Unauthorized: user not found")
        | some u => .next u

/-- Observation: the status of a halting middleware outcome. -/
def MwResult.haltStatus : MwResult → Option Nat
  | .halt r => some r.status
  | .next _ => none

/-- Observation: the message of a halting middleware outcome. -/
def MwResult.haltMessage : MwResult → Option String
  | .halt r => some r.message
  | .next _ => none

/-- Observation: the id of the user a continuing middleware outcome
attaches to the request context. -/
def MwResult.nextUserId : MwResult → Option Nat
  | .next u => some u.id
  | .halt _ => none

/-- Observation: the `isActive` field of the user object inside a
response's `data` payload, when present. -/
def respUserIsActive (r : Response) : Option Bool :=
  match r.data with
  | some (Json.obj [(_, Json.obj fields)]) =>
    match fields.lookup "isActive" with
    | some (Json.bool b) => some b
    | _ => none
  | _ => none

/-- The number of stored users an email lookup matches. -/
def countByEmail (s : Store) (email : String) : Nat :=
  (s.filter (fun u => u.email == normEmail email)).length

/-- A concrete register request body used by concrete instantiations. -/
def demoBody : RegisterBody :=
  ⟨some "John Doe", some "john@example.com", some "password123"⟩

/-- The store after a successful demo registration into an empty store. -/
def demoStore : Store := (registerController demoBody [] [] 1 0 "s" "d").2

/-- The user record the demo registration creates. -/
def demoUser : User :=
  { id := 1, name := "John Doe", email := "john@example.com",
    passwordHash := bcryptHash "password123", isActive := true,
    createdAt := 0, updatedAt := 0 }

/-- A concurrently committed user holding the demo email, used to exhibit
the register race. -/
def demoRaceUser : User :=
  { id := 7, name := "Someone Else", email := "john@example.com",
    passwordHash := bcryptHash "other", isActive := true,
    createdAt := 0, updatedAt := 0 }

/-- A concrete login request body matching the demo registration. -/
def demoLoginBody : LoginBody :=
  ⟨some "john@example.com", some "password123"⟩

/-- The user record a successful `create` builds from a register body. -/
def newUser (name email password : String) (newId now : Nat) : User :=
  { id := newId, name := trimStr name, email := normEmail email,
    passwordHash := bcryptHash password, isActive := true,
    createdAt := now, updatedAt := now }

/-- A bcrypt hash is never the empty string, so the `required` check on
`passwordHash` never fires on a register write. -/
theorem bcryptHash_ne_empty (password : String) : bcryptHash password ≠ "" := by
  intro h
  have h1 := congrArg String.length h
  have h2 : ("$2b$10$" : String).length = 7 := rfl
  rw [bcryptHash, String.length_append, h2] at h1
  simp at h1

/-- When the email count is zero, no stored user matches the lookup. -/
theorem email_no_match_of_count_zero {s : Store} {e : String}
    (h : countByEmail s e = 0) :
    ∀ u ∈ s, ¬ (u.email == normEmail e) = true := by
  have h0 : s.filter (fun u => u.email == normEmail e) = [] :=
    List.length_eq_zero.mp (by simpa [countByEmail] using h)
  exact List.filter_eq_nil_iff.mp h0

/-- When the email count is zero, `findOne` misses. -/
theorem findOne_eq_none_of_count_zero {s : Store} {e : String}
    (h : countByEmail s e = 0) : findOne s e = none :=
  List.find?_eq_none.mpr (email_no_match_of_count_zero h)

/-- When the email count is zero, the unique-index probe of `create` is
negative. -/
theorem any_email_eq_false_of_count_zero {s : Store} {e : String}
    (h : countByEmail s e = 0) :
    s.any (fun u => u.email == normEmail e) = false :=
  List.any_eq_false.mpr (email_no_match_of_count_zero h)

/-- Reduction of `registerController` on the success path: validation
passes, the pre-check misses, and the unique index accepts the write. -/
theorem register_success
    (store : Store) (pending : List User) (name email password : String)
    (newId now : Nat) (secret nodeEnv : String)
    (hname : trimStr name ≠ "") (hemail : normEmail email ≠ "")
    (hpw : password ≠ "")
    (hpre : findOne store email = none)
    (hany : (store ++ pending).any (fun u => u.email == normEmail email) = false) :
    registerController ⟨some name, some email, some password⟩ store pending
        newId now secret nodeEnv
      = ({ status := 201, success := true,
           message := "User registered successfully",
           data := some (userPayload (newUser name email password newId now)),
           cookie := .set "token" (jwtSign newId secret now)
              (cookieOptions nodeEnv) },
         store ++ pending ++ [newUser name email password newId now]) := by
  have hn : name ≠ "" := fun h => hname (by rw [h]; decide)
  have he : email ≠ "" := fun h => hemail (by rw [h]; decide)
  have t1 : truthy (some name) = true := by simp [truthy, hn]
  have t2 : truthy (some email) = true := by simp [truthy, he]
  have t3 : truthy (some password) = true := by simp [truthy, hpw]
  have hcreate : Store.create (store ++ pending) name email
      (bcryptHash password) newId now
      = .ok (newUser name email password newId now,
             store ++ pending ++ [newUser name email password newId now]) := by
    simp only [Store.create]
    rw [if_neg (by simp [not_or]; exact ⟨hname, hemail, bcryptHash_ne_empty password⟩)]
    rw [if_neg (by simp [hany])]
    rfl
  unfold registerController
  rw [if_neg (fun hc => hc ⟨t1, t2, t3⟩)]
  simp only [Option.getD_some, hpre, hcreate]
  rfl

/-- Reduction of `registerController` on the duplicate path: validation
passes but the pre-check finds an existing user. -/
theorem register_duplicate
    (store : Store) (pending : List User) (name email password : String)
    (newId now : Nat) (secret nodeEnv : String)
    (hn : name ≠ "") (he : email ≠ "") (hpw : password ≠ "")
    (u : User) (hfound : findOne store email = some u) :
    registerController ⟨some name, some email, some password⟩ store pending
        newId now secret nodeEnv
      = (errResponse 409 "User already exists", store ++ pending) := by
  have t1 : truthy (some name) = true := by simp [truthy, hn]
  have t2 : truthy (some email) = true := by simp [truthy, he]
  have t3 : truthy (some password) = true := by simp [truthy, hpw]
  unfold registerController
  rw [if_neg (fun hc => hc ⟨t1, t2, t3⟩)]
  simp only [Option.getD_some, hfound]

/-- C1: every success response of register (201) or login (200) carries a
user object that is exactly the sanitized projection, whose field list is
`_id, name, email, isActive, createdAt, updatedAt` and never contains a
`passwordHash` field. -/
theorem C1_sanitized_user_projection
    (body : RegisterBody) (store : Store) (pending : List User)
    (newId now : Nat) (secret nodeEnv : String)
    (lbody : LoginBody) (dbFails : Bool) :
    ((registerController body store pending newId now secret nodeEnv).1.status = 201 →
      ∃ u, (registerController body store pending newId now secret nodeEnv).1.data
        = some (userPayload u)) ∧
    ((loginController lbody store dbFails now secret nodeEnv).1.status = 200 →
      ∃ u, (loginController lbody store dbFails now secret nodeEnv).1.data
        = some (userPayload u)) ∧
    (∀ u : User,
      jsonKeys (userResponseJson u)
        = ["_id", "name", "email", "isActive", "createdAt", "updatedAt"] ∧
      "passwordHash" ∉ jsonKeys (userResponseJson u)) := by
  refine ⟨?_, ?_, ?_⟩
  · unfold registerController
    split
    · intro h; simp [errResponse] at h
    · split
      · intro h; simp [errResponse] at h
      · split
        · intro h; simp [errResponse] at h
        · intro _; exact ⟨_, rfl⟩
  · unfold loginController
    split
    · intro h; simp [errResponse] at h
    · split
      · intro h; simp [errResponse] at h
      · split
        · intro h; simp [errResponse] at h
        · split
          · intro h; simp [errResponse] at h
          · intro _; exact ⟨_, rfl⟩
  · intro u
    refine ⟨rfl, ?_⟩
    show "passwordHash" ∉ ["_id", "name", "email", "isActive", "createdAt", "updatedAt"]
    decide

/-- Witness for C1: the demo register and the matching login both return
the sanitized payload, and the demo user's projection carries no
`passwordHash` key. -/
theorem C1_sanitized_user_projection_witness :
    (∃ u, (registerController demoBody [] [] 1 0 "s" "d").1.data
        = some (userPayload u)) ∧
    (∃ u, (loginController demoLoginBody demoStore false 9 "s" "d").1.data
        = some (userPayload u)) ∧
    "passwordHash" ∉ jsonKeys (userResponseJson demoUser) :=
  ⟨(C1_sanitized_user_projection demoBody [] [] 1 0 "s" "d" demoLoginBody false).1
      (by decide),
   (C1_sanitized_user_projection demoBody demoStore [] 1 9 "s" "d" demoLoginBody false).2.1
      (by decide),
   ((C1_sanitized_user_projection demoBody [] [] 1 0 "s" "d" demoLoginBody false).2.2
      demoUser).2⟩

/-- C9: login and logout never modify the credential store, whatever the
outcome of the call. -/
theorem C9_login_logout_preserve_store
    (lbody : LoginBody) (store : Store) (dbFails : Bool) (now : Nat)
    (secret nodeEnv : String) :
    (loginController lbody store dbFails now secret nodeEnv).2 = store ∧
    (logoutController store nodeEnv).2 = store := by
  constructor
  · unfold loginController
    split
    · rfl
    · split
      · rfl
      · split
        · rfl
        · split
          · rfl
          · rfl
  · rfl

/-- C7: logout answers 200 with success true and clears the `token` cookie
with the shared cookie attributes; register and login set the cookie under
exactly that name and those attributes. -/
theorem C7_logout_clears_cookie
    (store : Store) (nodeEnv : String) :
    ((logoutController store nodeEnv).1.status = 200 ∧
     (logoutController store nodeEnv).1.success = true ∧
     (logoutController store nodeEnv).1.cookie
        = .clear "token" (cookieOptions nodeEnv)) ∧
    (∀ body store2 pending newId now secret n t o,
      (registerController body store2 pending newId now secret nodeEnv).1.cookie
          = .set n t o → n = "token" ∧ o = cookieOptions nodeEnv) ∧
    (∀ lbody store2 dbFails now secret n t o,
      (loginController lbody store2 dbFails now secret nodeEnv).1.cookie
          = .set n t o → n = "token" ∧ o = cookieOptions nodeEnv) := by
  refine ⟨⟨rfl, rfl, rfl⟩, ?_, ?_⟩
  · intro body store2 pending newId now secret n t o h
    unfold registerController at h
    split at h
    · simp [errResponse] at h
    · split at h
      · simp [errResponse] at h
      · split at h
        · simp [errResponse] at h
        · simp only [CookieAction.set.injEq] at h
          exact ⟨h.1.symm, h.2.2.symm⟩
  · intro lbody store2 dbFails now secret n t o h
    unfold loginController at h
    split at h
    · simp [errResponse] at h
    · split at h
      · simp [errResponse] at h
      · split at h
        · simp [errResponse] at h
        · split at h
          · simp [errResponse] at h
          · simp only [CookieAction.set.injEq] at h
            exact ⟨h.1.symm, h.2.2.symm⟩

/-- Witness for C7: the demo register sets the cookie under the name and
attributes logout clears. -/
theorem C7_logout_clears_cookie_witness :
    "token" = "token" ∧ cookieOptions "d" = cookieOptions "d" :=
  (C7_logout_clears_cookie [] "d").2.1 demoBody [] [] 1 0 "s" "token"
    (jwtSign 1 "s" 0) (cookieOptions "d") (by decide)

/-- C4: the auth middleware is a linear pipeline: missing token halts with
401 `Unauthorized: token not found`; a failed verification halts with 401
`Invalid token`; an unresolved user id halts with 401 `Unauthorized: user
not found`; otherwise the resolved user is attached and the chain
continues — and every halting outcome carries status 401. -/
theorem C4_middleware_pipeline
    (cookieToken : Option Token) (secret : String) (now : Nat)
    (store : Store) (dbFails : Bool) :
    (cookieToken = none →
      authMiddleware cookieToken secret now store dbFails
        = .halt (errResponse 401 "Unauthorized: token not found")) ∧
    (∀ t e, cookieToken = some t → jwtVerify t secret now = .error e →
      authMiddleware cookieToken secret now store dbFails
        = .halt (errResponse 401 "Invalid token")) ∧
    (∀ t uid, cookieToken = some t → jwtVerify t secret now = .ok uid →
      dbFails = false → findById store uid = none →
      authMiddleware cookieToken secret now store dbFails
        = .halt (errResponse 401 "Unauthorized: user not found")) ∧
    (∀ t uid u, cookieToken = some t → jwtVerify t secret now = .ok uid →
      dbFails = false → findById store uid = some u →
      authMiddleware cookieToken secret now store dbFails = .next u) ∧
    (∀ r, authMiddleware cookieToken secret now store dbFails = .halt r →
      r.status = 401) := by
  refine ⟨?_, ?_, ?_, ?_, ?_⟩
  · rintro rfl; rfl
  · rintro t e rfl hv
    unfold authMiddleware
    simp only [hv]
  · rintro t uid rfl hv rfl hf
    unfold authMiddleware
    simp only [hv, hf]
    rfl
  · rintro t uid u rfl hv rfl hf
    unfold authMiddleware
    simp only [hv, hf]
    rfl
  · intro r h
    unfold authMiddleware at h
    split at h
    · injection h with h1; subst h1; rfl
    · split at h
      · injection h with h1; subst h1; rfl
      · split at h
        · injection h with h1; subst h1; rfl
        · split at h
          · injection h with h1; subst h1; rfl
          · simp at h

/-- Witness for C4: a request without a token halts with the stated 401. -/
theorem C4_middleware_pipeline_witness :
    authMiddleware none "s" 0 [] false
      = .halt (errResponse 401 "Unauthorized: token not found") :=
  (C4_middleware_pipeline none "s" 0 [] false).1 rfl

/-- C10: in the middleware, every exception after the token-presence check
is caught and answered with 401 `Invalid token` — a verification failure
and a store failure during the user lookup alike — and no middleware
outcome ever has status 500. -/
theorem C10_middleware_catch_answers_401
    (cookieToken : Option Token) (secret : String) (now : Nat)
    (store : Store) (dbFails : Bool) :
    (∀ t e, cookieToken = some t → jwtVerify t secret now = .error e →
      authMiddleware cookieToken secret now store dbFails
        = .halt (errResponse 401 "Invalid token")) ∧
    (∀ t uid, cookieToken = some t → jwtVerify t secret now = .ok uid →
      dbFails = true →
      authMiddleware cookieToken secret now store dbFails
        = .halt (errResponse 401 "Invalid token")) ∧
    (∀ r, authMiddleware cookieToken secret now store dbFails = .halt r →
      r.status = 401 ∧ r.status ≠ 500) := by
  refine ⟨?_, ?_, ?_⟩
  · rintro t e rfl hv
    unfold authMiddleware
    simp only [hv]
  · rintro t uid rfl hv rfl
    unfold authMiddleware
    simp only [hv]
    rfl
  · intro r h
    unfold authMiddleware at h
    split at h
    · injection h with h1; subst h1; exact ⟨rfl, by decide⟩
    · split at h
      · injection h with h1; subst h1; exact ⟨rfl, by decide⟩
      · split at h
        · injection h with h1; subst h1; exact ⟨rfl, by decide⟩
        · split at h
          · injection h with h1; subst h1; exact ⟨rfl, by decide⟩
          · simp at h

/-- Witness for C10: a store failure during the user lookup is answered
with 401 `Invalid token`. -/
theorem C10_middleware_catch_answers_401_witness :
    authMiddleware (some (jwtSign 1 "s" 0)) "s" 0 [] true
      = .halt (errResponse 401 "Invalid token") :=
  (C10_middleware_catch_answers_401 (some (jwtSign 1 "s" 0)) "s" 0 [] true).2.1
    (jwtSign 1 "s" 0) 1 rfl rfl rfl

/-- C5: with both fields present, login answers 404 `User not found` on an
unknown email and 401 `Invalid password` on a wrong password, and in
neither case answers 200. -/
theorem C5_login_error_paths
    (store : Store) (email password : String) (now : Nat)
    (secret nodeEnv : String) (he : email ≠ "") (hp : password ≠ "") :
    (findOne store email = none →
      (loginController ⟨some email, some password⟩ store false now secret nodeEnv).1.status = 404 ∧
      (loginController ⟨some email, some password⟩ store false now secret nodeEnv).1.message
        = "User not found" ∧
      (loginController ⟨some email, some password⟩ store false now secret nodeEnv).1.status ≠ 200) ∧
    (∀ u, findOne store email = some u →
      bcryptCompare password u.passwordHash = false →
      (loginController ⟨some email, some password⟩ store false now secret nodeEnv).1.status = 401 ∧
      (loginController ⟨some email, some password⟩ store false now secret nodeEnv).1.message
        = "Invalid password" ∧
      (loginController ⟨some email, some password⟩ store false now secret nodeEnv).1.status ≠ 200) := by
  have t1 : truthy (some email) = true := by simp [truthy, he]
  have t2 : truthy (some password) = true := by simp [truthy, hp]
  constructor
  · intro hn
    unfold loginController
    rw [if_neg (fun hc => hc ⟨t1, t2⟩), if_neg (fun h => Bool.noConfusion h)]
    simp only [Option.getD_some, hn]
    exact ⟨rfl, rfl, show (404 : Nat) ≠ 200 from by decide⟩
  · intro u hs hcmp
    unfold loginController
    rw [if_neg (fun hc => hc ⟨t1, t2⟩), if_neg (fun h => Bool.noConfusion h)]
    simp only [Option.getD_some, hs]
    rw [if_pos (by simp [hcmp])]
    exact ⟨rfl, rfl, show (401 : Nat) ≠ 200 from by decide⟩

/-- Witness for C5: an unknown email against the demo store answers 404,
and the demo user with a wrong password answers 401. -/
theorem C5_login_error_paths_witness :
    ((loginController ⟨some "nobody@x.com", some "pw"⟩ demoStore false 9 "s" "d").1.status = 404 ∧
     (loginController ⟨some "nobody@x.com", some "pw"⟩ demoStore false 9 "s" "d").1.message
        = "User not found" ∧
     (loginController ⟨some "nobody@x.com", some "pw"⟩ demoStore false 9 "s" "d").1.status ≠ 200) ∧
    ((loginController ⟨some "john@example.com", some "wrong"⟩ demoStore false 9 "s" "d").1.status = 401 ∧
     (loginController ⟨some "john@example.com", some "wrong"⟩ demoStore false 9 "s" "d").1.message
        = "Invalid password" ∧
     (loginController ⟨some "john@example.com", some "wrong"⟩ demoStore false 9 "s" "d").1.status ≠ 200) :=
  ⟨(C5_login_error_paths demoStore "nobody@x.com" "pw" 9 "s" "d"
      (by decide) (by decide)).1 (by decide),
   (C5_login_error_paths demoStore "john@example.com" "wrong" 9 "s" "d"
      (by decide) (by decide)).2 demoUser (by decide) (by decide)⟩

/-- C2: against a store holding no user for an email, a valid register
answers 201 and adds exactly one user for that email; a second register
with the same email answers 409 `User already exists`, leaves the store
unchanged, and the store still holds exactly one user for the email. -/
theorem C2_register_twice_same_email
    (store : Store) (name email password : String)
    (newId1 now1 newId2 now2 : Nat) (secret nodeEnv : String)
    (hcount : countByEmail store email = 0)
    (hname : trimStr name ≠ "") (hemail : normEmail email ≠ "")
    (hpw : password ≠ "") :
    (registerController ⟨some name, some email, some password⟩ store []
        newId1 now1 secret nodeEnv).1.status = 201 ∧
    countByEmail (registerController ⟨some name, some email, some password⟩
        store [] newId1 now1 secret nodeEnv).2 email = 1 ∧
    (registerController ⟨some name, some email, some password⟩
        (registerController ⟨some name, some email, some password⟩ store []
          newId1 now1 secret nodeEnv).2
        [] newId2 now2 secret nodeEnv).1.status = 409 ∧
    (registerController ⟨some name, some email, some password⟩
        (registerController ⟨some name, some email, some password⟩ store []
          newId1 now1 secret nodeEnv).2
        [] newId2 now2 secret nodeEnv).1.message = "User already exists" ∧
    (registerController ⟨some name, some email, some password⟩
        (registerController ⟨some name, some email, some password⟩ store []
          newId1 now1 secret nodeEnv).2
        [] newId2 now2 secret nodeEnv).2
      = (registerController ⟨some name, some email, some password⟩ store []
          newId1 now1 secret nodeEnv).2 ∧
    countByEmail (registerController ⟨some name, some email, some password⟩
        (registerController ⟨some name, some email, some password⟩ store []
          newId1 now1 secret nodeEnv).2
        [] newId2 now2 secret nodeEnv).2 email = 1 := by
  have hn : name ≠ "" := fun h => hname (by rw [h]; decide)
  have he : email ≠ "" := fun h => hemail (by rw [h]; decide)
  have t1 : truthy (some name) = true := by simp [truthy, hn]
  have t2 : truthy (some email) = true := by simp [truthy, he]
  have t3 : truthy (some password) = true := by simp [truthy, hpw]
  have hpre : findOne store email = none := findOne_eq_none_of_count_zero hcount
  have hany : (store ++ ([] : List User)).any
      (fun u => u.email == normEmail email) = false := by
    simpa using any_email_eq_false_of_count_zero hcount
  have h1 := register_success store [] name email password newId1 now1
    secret nodeEnv hname hemail hpw hpre hany
  have hfilter : store.filter (fun u => u.email == normEmail email) = [] :=
    List.length_eq_zero.mp (by simpa [countByEmail] using hcount)
  have hmatch : ((newUser name email password newId1 now1).email
      == normEmail email) = true := by simp [newUser]
  have hcount1 : countByEmail (registerController
      ⟨some name, some email, some password⟩ store [] newId1 now1
      secret nodeEnv).2 email = 1 := by
    rw [h1]
    simp [countByEmail, List.filter_append, hfilter, hmatch]
  have hfind2 : findOne (registerController
      ⟨some name, some email, some password⟩ store [] newId1 now1
      secret nodeEnv).2 email = some (newUser name email password newId1 now1) := by
    rw [h1]
    unfold findOne at hpre ⊢
    simp [List.find?_append, hpre, hmatch]
  have h2 : registerController ⟨some name, some email, some password⟩
      (registerController ⟨some name, some email, some password⟩ store []
        newId1 now1 secret nodeEnv).2 [] newId2 now2 secret nodeEnv
      = (errResponse 409 "User already exists",
         (registerController ⟨some name, some email, some password⟩ store []
           newId1 now1 secret nodeEnv).2 ++ []) :=
    register_duplicate _ [] name email password newId2 now2 secret nodeEnv
      hn he hpw _ hfind2
  refine ⟨by rw [h1], hcount1, by rw [h2]; rfl, by rw [h2]; rfl, ?_, ?_⟩
  · rw [h2]; simp
  · rw [h2]; simpa using hcount1

/-- Witness for C2 at the demo registration into an empty store. -/
theorem C2_register_twice_same_email_witness :
    (registerController demoBody [] [] 1 0 "s" "d").1.status = 201 ∧
    countByEmail (registerController demoBody [] [] 1 0 "s" "d").2
      "john@example.com" = 1 ∧
    (registerController demoBody (registerController demoBody [] [] 1 0 "s" "d").2
        [] 2 5 "s" "d").1.status = 409 ∧
    (registerController demoBody (registerController demoBody [] [] 1 0 "s" "d").2
        [] 2 5 "s" "d").1.message = "User already exists" ∧
    (registerController demoBody (registerController demoBody [] [] 1 0 "s" "d").2
        [] 2 5 "s" "d").2
      = (registerController demoBody [] [] 1 0 "s" "d").2 ∧
    countByEmail (registerController demoBody
        (registerController demoBody [] [] 1 0 "s" "d").2 [] 2 5 "s" "d").2
      "john@example.com" = 1 :=
  C2_register_twice_same_email [] "John Doe" "john@example.com" "password123"
    1 0 2 5 "s" "d" (by decide) (by decide) (by decide) (by decide)

/-- Counterexample for C3: the pre-check misses on the pre-check-time
store, the concurrent write makes `create` reject with a duplicate key,
and the handler answers 500, not the 409 the claim states. -/
theorem C3_counterexample :
    findOne [] "john@example.com" = none ∧
    Store.create ([] ++ [demoRaceUser]) "John Doe" "john@example.com"
      (bcryptHash "password123") 2 5 = .error .duplicateKey ∧
    (registerController demoBody [] [demoRaceUser] 2 5 "s" "d").1.status = 500 ∧
    (registerController demoBody [] [demoRaceUser] 2 5 "s" "d").1.status ≠ 409 :=
  ⟨rfl, rfl, by decide, by decide⟩

/-- C3 as amended: when the pre-check passes but the store rejects the
subsequent create because a concurrent registration with the same email
won the race, the register handler answers through its generic catch:
500 `Internal server error`, not 409. -/
theorem C3_race_lost_answers_500
    (store : Store) (pending : List User) (name email password : String)
    (newId now : Nat) (secret nodeEnv : String)
    (hn : name ≠ "") (he : email ≠ "") (hpw : password ≠ "")
    (hpre : findOne store email = none)
    (hdup : (store ++ pending).any
      (fun u => u.email == normEmail email) = true) :
    (registerController ⟨some name, some email, some password⟩ store pending
        newId now secret nodeEnv).1.status = 500 ∧
    (registerController ⟨some name, some email, some password⟩ store pending
        newId now secret nodeEnv).1.message = "Internal server error" ∧
    (registerController ⟨some name, some email, some password⟩ store pending
        newId now secret nodeEnv).1.status ≠ 409 := by
  have t1 : truthy (some name) = true := by simp [truthy, hn]
  have t2 : truthy (some email) = true := by simp [truthy, he]
  have t3 : truthy (some password) = true := by simp [truthy, hpw]
  have hcreate : ∃ err, Store.create (store ++ pending) name email
      (bcryptHash password) newId now = .error err := by
    simp only [Store.create, hdup]
    split
    · exact ⟨_, rfl⟩
    · exact ⟨_, rfl⟩
  obtain ⟨err, hc⟩ := hcreate
  unfold registerController
  rw [if_neg (fun hc => hc ⟨t1, t2, t3⟩)]
  simp only [Option.getD_some, hpre, hc]
  exact ⟨rfl, rfl, show (500 : Nat) ≠ 409 from by decide⟩

/-- Witness for the amended C3 at the demo race. -/
theorem C3_race_lost_answers_500_witness :
    (registerController demoBody [] [demoRaceUser] 2 5 "s" "d").1.status = 500 ∧
    (registerController demoBody [] [demoRaceUser] 2 5 "s" "d").1.message
      = "Internal server error" ∧
    (registerController demoBody [] [demoRaceUser] 2 5 "s" "d").1.status ≠ 409 :=
  C3_race_lost_answers_500 [] [demoRaceUser] "John Doe" "john@example.com"
    "password123" 2 5 "s" "d" (by decide) (by decide) (by decide)
    (by decide) (by decide)

/-- C6: a successful register issues a token which, presented to the auth
middleware before expiry against the post-register store, verifies and
resolves to a user carrying exactly the id register created, so the
middleware continues with that user attached. -/
theorem C6_register_token_roundtrip
    (store : Store) (name email password : String)
    (newId now now2 : Nat) (secret nodeEnv : String)
    (hname : trimStr name ≠ "") (hemail : normEmail email ≠ "")
    (hpw : password ≠ "")
    (hcount : countByEmail store email = 0)
    (hfresh : ∀ u ∈ store, u.id ≠ newId)
    (hexp : now2 < now + fiveDaysSec) :
    (registerController ⟨some name, some email, some password⟩ store []
        newId now secret nodeEnv).1.status = 201 ∧
    ∃ t opts,
      (registerController ⟨some name, some email, some password⟩ store []
          newId now secret nodeEnv).1.cookie = .set "token" t opts ∧
      ∃ u, authMiddleware (some t) secret now2
            (registerController ⟨some name, some email, some password⟩ store []
              newId now secret nodeEnv).2 false = .next u ∧
        u.id = newId := by
  have hpre : findOne store email = none := findOne_eq_none_of_count_zero hcount
  have hany : (store ++ ([] : List User)).any
      (fun u => u.email == normEmail email) = false := by
    simpa using any_email_eq_false_of_count_zero hcount
  have h1 := register_success store [] name email password newId now
    secret nodeEnv hname hemail hpw hpre hany
  refine ⟨by rw [h1], jwtSign newId secret now, cookieOptions nodeEnv,
    by rw [h1], newUser name email password newId now, ?_, rfl⟩
  rw [h1]
  have hv : jwtVerify (jwtSign newId secret now) secret now2 = .ok newId := by
    unfold jwtVerify jwtSign
    rw [if_neg (by simp), if_neg (by simp; omega)]
  have hfind : findById (store ++ [] ++ [newUser name email password newId now])
      newId = some (newUser name email password newId now) := by
    have hmiss : store.find? (fun u => u.id == newId) = none :=
      List.find?_eq_none.mpr (fun u hu => by simp [hfresh u hu])
    simp [findById, List.find?_append, hmiss, newUser]
  unfold authMiddleware
  simp only [hv, hfind]
  rfl

/-- Witness for C6 at the demo registration. -/
theorem C6_register_token_roundtrip_witness :
    (registerController demoBody [] [] 1 0 "s" "d").1.status = 201 ∧
    ∃ t opts,
      (registerController demoBody [] [] 1 0 "s" "d").1.cookie = .set "token" t opts ∧
      ∃ u, authMiddleware (some t) "s" 3
            (registerController demoBody [] [] 1 0 "s" "d").2 false = .next u ∧
        u.id = 1 :=
  C6_register_token_roundtrip [] "John Doe" "john@example.com" "password123"
    1 0 3 "s" "d" (by decide) (by decide) (by decide) (by decide)
    (by intro u hu; cases hu) (by decide)

/-- Toggling `isActive` leaves the stored email unchanged. -/
theorem update_isActive_email (u : User) (b : Bool) :
    ({ u with isActive := b } : User).email = u.email := rfl

/-- Toggling `isActive` leaves the stored id unchanged. -/
theorem update_isActive_id (u : User) (b : Bool) :
    ({ u with isActive := b } : User).id = u.id := rfl

/-- Toggling `isActive` leaves the stored password hash unchanged. -/
theorem update_isActive_passwordHash (u : User) (b : Bool) :
    ({ u with isActive := b } : User).passwordHash = u.passwordHash := rfl

/-- An email lookup commutes with toggling `isActive` across the store. -/
theorem findOne_map_isActive (g : User → Bool) (store : Store) (email : String) :
    findOne (store.map (fun u => { u with isActive := g u })) email
      = (findOne store email).map (fun u => { u with isActive := g u }) := by
  unfold findOne
  rw [List.find?_map]
  rfl

/-- An id lookup commutes with toggling `isActive` across the store. -/
theorem findById_map_isActive (g : User → Bool) (store : Store) (id : Nat) :
    findById (store.map (fun u => { u with isActive := g u })) id
      = (findById store id).map (fun u => { u with isActive := g u }) := by
  unfold findById
  rw [List.find?_map]
  rfl

/-- Counterexample for C8: two stores differing only in the user's
`isActive` flag make login with correct credentials produce different
responses — the flag is echoed inside the success body — so the results
are not identical and the flag is read beyond its creation default. -/
theorem C8_counterexample :
    (loginController demoLoginBody [demoUser] false 9 "s" "d").1.status = 200 ∧
    (loginController demoLoginBody [{ demoUser with isActive := false }]
        false 9 "s" "d").1.status = 200 ∧
    respUserIsActive
      (loginController demoLoginBody [demoUser] false 9 "s" "d").1 = some true ∧
    respUserIsActive
      (loginController demoLoginBody [{ demoUser with isActive := false }]
        false 9 "s" "d").1 = some false ∧
    (loginController demoLoginBody [demoUser] false 9 "s" "d").1
      ≠ (loginController demoLoginBody [{ demoUser with isActive := false }]
          false 9 "s" "d").1 := by
  refine ⟨by decide, by decide, rfl, rfl, ?_⟩
  intro h
  have h1 : respUserIsActive
      (loginController demoLoginBody [demoUser] false 9 "s" "d").1 = some true := rfl
  rw [h] at h1
  have h2 : respUserIsActive
      (loginController demoLoginBody [{ demoUser with isActive := false }]
        false 9 "s" "d").1 = some false := rfl
  rw [h2] at h1
  exact absurd h1 (by decide)

/-- C8 as amended: toggling `isActive` arbitrarily across the store never
changes login's status, success flag, message or cookie, nor the
middleware's halting status, halting message or attached user id; the
response body's echoed `isActive` field is the only read of the flag, and
`create` defaults it to true. -/
theorem C8_isActive_no_influence_on_outcome
    (g : User → Bool) (store : Store) (lbody : LoginBody) (dbFails : Bool)
    (now : Nat) (secret nodeEnv : String) :
    ((loginController lbody (store.map (fun u => { u with isActive := g u }))
        dbFails now secret nodeEnv).1.status
      = (loginController lbody store dbFails now secret nodeEnv).1.status ∧
     (loginController lbody (store.map (fun u => { u with isActive := g u }))
        dbFails now secret nodeEnv).1.success
      = (loginController lbody store dbFails now secret nodeEnv).1.success ∧
     (loginController lbody (store.map (fun u => { u with isActive := g u }))
        dbFails now secret nodeEnv).1.message
      = (loginController lbody store dbFails now secret nodeEnv).1.message ∧
     (loginController lbody (store.map (fun u => { u with isActive := g u }))
        dbFails now secret nodeEnv).1.cookie
      = (loginController lbody store dbFails now secret nodeEnv).1.cookie) ∧
    (∀ tok now2 dbF,
      (authMiddleware tok secret now2
          (store.map (fun u => { u with isActive := g u })) dbF).haltStatus
        = (authMiddleware tok secret now2 store dbF).haltStatus ∧
      (authMiddleware tok secret now2
          (store.map (fun u => { u with isActive := g u })) dbF).haltMessage
        = (authMiddleware tok secret now2 store dbF).haltMessage ∧
      (authMiddleware tok secret now2
          (store.map (fun u => { u with isActive := g u })) dbF).nextUserId
        = (authMiddleware tok secret now2 store dbF).nextUserId) ∧
    (∀ s n e p i t u s2, Store.create s n e p i t = .ok (u, s2) →
      u.isActive = true) := by
  refine ⟨?_, ?_, ?_⟩
  · unfold loginController
    by_cases hval : truthy lbody.email = true ∧ truthy lbody.password = true
    · rw [if_neg (not_not_intro hval), if_neg (not_not_intro hval)]
      cases dbFails
      · rw [if_neg (fun h => Bool.noConfusion h),
          if_neg (fun h => Bool.noConfusion h)]
        rw [findOne_map_isActive]
        cases hfo : findOne store (lbody.email.getD "") with
        | none => exact ⟨rfl, rfl, rfl, rfl⟩
        | some u =>
          simp only [Option.map_some', update_isActive_passwordHash,
            update_isActive_id]
          by_cases hcmp : bcryptCompare (lbody.password.getD "")
              u.passwordHash = true
          · rw [if_neg (not_not_intro hcmp), if_neg (not_not_intro hcmp)]
            exact ⟨rfl, rfl, rfl, rfl⟩
          · rw [if_pos hcmp, if_pos hcmp]
            exact ⟨rfl, rfl, rfl, rfl⟩
      · rw [if_pos rfl, if_pos rfl]
        exact ⟨rfl, rfl, rfl, rfl⟩
    · rw [if_pos hval, if_pos hval]
      exact ⟨rfl, rfl, rfl, rfl⟩
  · intro tok now2 dbF
    cases tok with
    | none => exact ⟨rfl, rfl, rfl⟩
    | some t =>
      cases hv : jwtVerify t secret now2 with
      | error e =>
        unfold authMiddleware
        simp only [hv]
        refine ⟨?_, ?_, ?_⟩ <;> trivial
      | ok uid =>
        cases dbF
        · cases hfi : findById store uid with
          | none =>
            unfold authMiddleware
            simp only [hv, findById_map_isActive, hfi]
            refine ⟨?_, ?_, ?_⟩ <;> trivial
          | some u =>
            unfold authMiddleware
            simp only [hv, findById_map_isActive, hfi, Option.map_some']
            refine ⟨?_, ?_, ?_⟩ <;> trivial
        · unfold authMiddleware
          simp only [hv]
          refine ⟨?_, ?_, ?_⟩ <;> trivial
  · intro s n e p i t u s2 h
    simp only [Store.create] at h
    split at h
    · simp at h
    · split at h
      · simp at h
      · injection h with h1
        exact (congrArg (fun p : User × Store => p.1.isActive) h1).symm

/-- Witness for the amended C8: the demo create defaults `isActive` to
true. -/
theorem C8_isActive_no_influence_on_outcome_witness :
    demoUser.isActive = true :=
  (C8_isActive_no_influence_on_outcome (fun _ => false) [] demoLoginBody
      false 9 "s" "d").2.2
    [] "John Doe" "john@example.com" (bcryptHash "password123") 1 0
    demoUser [demoUser] (by rfl)

end BackendAuth
